import Mathlib

/-!
# Verification of the rate/credit gate and account billing operations

Shallow embedding of `src/accounts/views.py` (class `RateLimit`, method
`post`, plus the wrappers `CreditsConsume.post` and
`CancelSubscription.post`) of the speechtospeechai repository, together
with theorems settling the specification claims about them.

Conventions of the embedding:
* Python exceptions raised while reading the request (`KeyError` for a
  missing `User_Agent` header, `TypeError` for `int(None)` or iterating
  `None`, `ValueError` for `int` of a non-numeric string) become the
  `Except PyError` error channel.
* The Django cache becomes an association list from keys to entries with
  an absolute expiry instant; time is an explicit `now : Nat` parameter
  (seconds).  A read is live exactly when `now` is strictly before the
  stored expiry.
* The md5 hex digest of the fingerprint string `"%s %s" % (ip, user_agent)`
  is modelled by the fingerprint string itself: md5 is a fixed function of
  that string, so equality of keys is preserved (hash collisions are not
  modelled).  Python renders `None` as the string `"None"`, which the
  embedding reproduces.
* Every cache interaction of a run is also recorded in an operation log so
  that "no cache read/write happens" claims are statable.
-/

/-- Configuration constants imported by the view from `config`
(`RATE_LIMIT`, `FILES_LIMIT`). -/
structure Config where
  RATE_LIMIT : Nat
  FILES_LIMIT : Int
deriving DecidableEq

/-- The caller seen by the view: Django's `request.user` is either the
anonymous user or an authenticated `CustomUser` carrying the fields the
view reads (`is_plan_active`, `credits`, `next_billing_date`). -/
inductive Caller where
  | anon : Caller
  | auth (is_plan_active : Bool) (credits : Int) (next_billing_date : Option String) : Caller
deriving DecidableEq

/-- `request.user.is_authenticated`. -/
def Caller.is_authenticated : Caller → Bool
  | .anon => false
  | .auth _ _ _ => true

/-- `request.user.is_plan_active` (never reached for the anonymous user
because the code short-circuits on `is_authenticated`). -/
def Caller.is_plan_active : Caller → Bool
  | .anon => false
  | .auth p _ _ => p

/-- `request.user.credits` (never reached for the anonymous user). -/
def Caller.credits : Caller → Int
  | .anon => 0
  | .auth _ cr _ => cr

/-- `request.user.next_billing_date` (never reached for the anonymous
user). -/
def Caller.next_billing_date : Caller → Option String
  | .anon => none
  | .auth _ _ nb => nb

/-- Python exceptions that `RateLimit.post` can raise while reading the
request. -/
inductive PyError where
  | keyError : PyError
  | typeError : PyError
  | valueError : PyError
deriving DecidableEq

/-- Decimal digits of a character list, `none` when a non-digit occurs
(the empty list yields `some 0` and is guarded by the callers). -/
def decDigits : List Char → Option Nat
  | [] => some 0
  | c :: cs =>
    if c.isDigit then
      (decDigits cs).map (fun n => (c.toNat - 48) * 10 ^ cs.length + n)
    else
      none

/-- Surrounding whitespace removed from a character list. -/
def stripWs (cs : List Char) : List Char :=
  ((cs.dropWhile Char.isWhitespace).reverse.dropWhile Char.isWhitespace).reverse

/-- Python's `int(s)` on a string: optional surrounding whitespace,
optional sign, then a nonempty digit run; `none` models `ValueError`. -/
def pyIntOfString : String → Option Int
  | s =>
    match stripWs s.toList with
    | [] => none
    | '-' :: rest =>
      if rest = [] then none else (decDigits rest).map (fun n => -(n : Int))
    | '+' :: rest =>
      if rest = [] then none else (decDigits rest).map (fun n => (n : Int))
    | cs => (decDigits cs).map (fun n => (n : Int))

/-- The loop `for item in files_data: total_size += int(item.get('size'))`.
Each list element is the item's optional `size` field: a missing field is
`int(None)` (`TypeError`), a non-numeric string is a `ValueError`. -/
def totalSize : List (Option String) → Except PyError Int
  | [] => .ok 0
  | none :: _ => .error .typeError
  | some s :: rest =>
    match pyIntOfString s with
    | none => .error .valueError
    | some n =>
      match totalSize rest with
      | .error e => .error e
      | .ok m => .ok (n + m)

/-- A cache entry for a fingerprint: the request counter and the absolute
instant at which the entry expires. -/
structure CacheEntry where
  counter : Nat
  expiresAt : Nat
deriving DecidableEq

/-- The shared cache, as an association list keyed by fingerprint. -/
abbrev Cache := List (String × CacheEntry)

/-- First entry stored under a key, ignoring expiry. -/
def cacheLookup : Cache → String → Option CacheEntry
  | [], _ => none
  | (k', e) :: rest, k => if k' = k then some e else cacheLookup rest k

/-- `Utils.get_from_cache`: the stored counter, provided the entry has not
expired at instant `now`. -/
def getFromCache (c : Cache) (now : Nat) (k : String) : Option Nat :=
  match cacheLookup c k with
  | some e => if now < e.expiresAt then some e.counter else none
  | none => none

/-- `Utils.set_to_cache(key, {'counter': counter}, exp=...)`: stores the
counter under the key with expiry `now + exp`, replacing any previous
entry. -/
def setToCache (c : Cache) (now : Nat) (k : String) (counter exp : Nat) : Cache :=
  (k, ⟨counter, now + exp⟩) :: c.filter (fun p => p.1 ≠ k)

/-- Modelled from the spec: `Utils.get_expire_info_cache` is not under
`src/`; the spec says denials carry a retry-after value "derived from the
cache entry's remaining time-to-live".  Modelled as that remaining
time-to-live in seconds (`none` when there is no live entry). -/
def expireInfo (c : Cache) (now : Nat) (k : String) : Option Nat :=
  match cacheLookup c k with
  | some e => if now < e.expiresAt then some (e.expiresAt - now) else none
  | none => none

/-- One cache interaction of a run of the gate: a counter read
(`Utils.get_from_cache`), a counter write (`Utils.set_to_cache`, recording
the stored counter and the expiry argument), or a time-to-live inspection
(`Utils.get_expire_info_cache`). -/
inductive CacheOp where
  | read (key : String) : CacheOp
  | write (key : String) (counter : Nat) (exp : Nat) : CacheOp
  | ttl (key : String) : CacheOp
deriving DecidableEq

/-- Python `'%s %s'` renders `None` as the string `"None"`. -/
def pyStr : Option String → String
  | none => "None"
  | some s => s

/-- The fingerprint `md5('%s %s' % (ip, user_agent)).hexdigest()`; md5 is
modelled by the identity on the formatted string (see the header note). -/
def cacheKeyOf (ip : Option String) (ua : String) : String :=
  pyStr ip ++ " " ++ ua

/-- Python truthiness of the `ip` value in `if ip:` — `None` and the empty
string are falsy. -/
def ipTruthy : Option String → Bool
  | none => false
  | some s => s ≠ ""

/-- The JSON body of a gate response together with its HTTP status.  The
four reason flags are `True` exactly in the responses that set them; the
remaining fields use an outer `Option` for presence of the JSON field
(`ipField` and the denial-only fields also keep the possibly-null value
inside). -/
structure GateResponse where
  httpStatus : Nat
  status : Bool
  limit_exceeded : Bool
  no_credits : Bool
  rate_limit : Bool
  ipField : Option (Option String)
  cacheKeyField : Option String
  counterField : Option Nat
  untilField : Option (Option Nat)
  nextBillingField : Option (Option String)
deriving DecidableEq

/-- A response with HTTP 200 and every flag and field absent. -/
def emptyResponse : GateResponse :=
  ⟨200, false, false, false, false, none, none, none, none, none⟩

/-- The allow responses that echo ip, fingerprint and counter (the
plan-active branch, the final fall-through branch, and the no-ip branch). -/
def allowFull (ip : Option String) (key : String) (counter : Nat) : GateResponse :=
  { emptyResponse with
      status := true, ipField := some ip, cacheKeyField := some key,
      counterField := some counter }

/-- The bare `JsonResponse({'status': True})` returned to an authenticated
caller with positive credits at the counter-tracking stage. -/
def bareAllow : GateResponse :=
  { emptyResponse with status := true }

/-- The `limit_exceeded` denial (HTTP 400). -/
def denyLimitExceeded (ip : Option String) (key : String) (u : Option Nat) :
    GateResponse :=
  { emptyResponse with
      httpStatus := 400, limit_exceeded := true, ipField := some ip,
      counterField := some 0, cacheKeyField := some key, untilField := some u }

/-- The `no_credits` denial (HTTP 400), carrying the next-billing date. -/
def denyNoCredits (ip : Option String) (key : String) (counter : Nat)
    (u : Option Nat) (nb : Option String) : GateResponse :=
  { emptyResponse with
      httpStatus := 400, no_credits := true, ipField := some ip,
      cacheKeyField := some key, counterField := some counter,
      untilField := some u, nextBillingField := some nb }

/-- The `rate_limit` denial (HTTP 400). -/
def denyRateLimit (ip : Option String) (key : String) (counter : Nat)
    (u : Option Nat) : GateResponse :=
  { emptyResponse with
      httpStatus := 400, rate_limit := true, ipField := some ip,
      counterField := some counter, cacheKeyField := some key,
      untilField := some u }

/-- The decision part of `RateLimit.post`, after the request body has been
read successfully: lines 56–113 of `src/accounts/views.py`, with the
caller, resolved ip, user agent, parsed total size, cache state and
current instant as explicit inputs.  Returns the response, the new cache
state, and the log of cache interactions.  `60 * 60` is the view's
`rate_total_seconds`. -/
def gateDecision (cfg : Config) (caller : Caller) (ip : Option String)
    (ua : String) (total : Int) (c : Cache) (now : Nat) :
    GateResponse × Cache × List CacheOp :=
  let key := cacheKeyOf ip ua
  if caller.is_authenticated = true ∧ caller.is_plan_active = true then
    (allowFull ip key 0, c, [])
  else if (caller.is_authenticated = false ∨ caller.credits ≤ 0) ∧
      cfg.FILES_LIMIT < total then
    (denyLimitExceeded ip key (expireInfo c now key), c, [.ttl key])
  else if ipTruthy ip = true then
    let counter0 := (getFromCache c now key).getD 0
    if caller.is_authenticated = true then
      if 0 < caller.credits then
        (bareAllow, c, [.read key])
      else if cfg.RATE_LIMIT ≤ counter0 then
        (denyNoCredits ip key counter0 (expireInfo c now key)
          caller.next_billing_date, c, [.read key, .ttl key])
      else
        (allowFull ip key (counter0 + 1),
         setToCache c now key (counter0 + 1) (60 * 60),
         [.read key, .write key (counter0 + 1) (60 * 60)])
    else
      if cfg.RATE_LIMIT ≤ counter0 then
        (denyRateLimit ip key counter0 (expireInfo c now key), c,
         [.read key, .ttl key])
      else
        (allowFull ip key (counter0 + 1),
         setToCache c now key (counter0 + 1) (60 * 60),
         [.read key, .write key (counter0 + 1) (60 * 60)])
  else
    (allowFull ip key 0, c, [])

/-- `RateLimit.post` in full: reads the `User_Agent` header (`KeyError`
when absent), the `files_data` field (`TypeError` when absent, because the
code iterates `None`), sums the declared sizes (which can raise), and then
decides. -/
def rateLimitPost (cfg : Config) (caller : Caller) (ip : Option String)
    (userAgent : Option String) (filesData : Option (List (Option String)))
    (c : Cache) (now : Nat) :
    Except PyError (GateResponse × Cache × List CacheOp) :=
  match userAgent with
  | none => .error .keyError
  | some ua =>
    match filesData with
    | none => .error .typeError
    | some items =>
      match totalSize items with
      | .error e => .error e
      | .ok total => .ok (gateDecision cfg caller ip ua total c now)

/-- A sequence of gate requests with fixed caller, ip, user agent and body,
at the given instants, threading the cache through; stops at the first
raised exception. -/
def runSeq (cfg : Config) (caller : Caller) (ip : Option String)
    (userAgent : Option String) (filesData : Option (List (Option String))) :
    List Nat → Cache → Except PyError (List GateResponse × Cache)
  | [], c => .ok ([], c)
  | t :: ts, c =>
    match rateLimitPost cfg caller ip userAgent filesData c t with
    | .error e => .error e
    | .ok (r, c', _) =>
      match runSeq cfg caller ip userAgent filesData ts c' with
      | .error e => .error e
      | .ok (rs, c'') => .ok (r :: rs, c'')

/-- The fields of `CustomUser` touched by credit consumption and
subscription cancellation (`src/accounts/tests.py`, `CreditConsumptionTests`
and `CancelSubscriptionTests`). -/
structure Account where
  credits : Int
  is_plan_active : Bool
  processor : Option String
  card_nonce : Option String
  payment_nonce : Option String
  next_billing_date : Option String
deriving DecidableEq

/-- Modelled from the spec: `CustomUser.consume_credits` is not under
`src/` (only its caller `CreditsConsume.post` and its tests are).  The
spec says it "decrements credits by 1, floored at 0; no-op (returns
nothing) when no account is supplied (anonymous caller)". -/
def consume_credits : Option Account → Option Account
  | none => none
  | some a => some { a with credits := max (a.credits - 1) 0 }

/-- Modelled from the spec: `CustomUser.cancel_subscription` is not under
`src/` (only its caller `CancelSubscription.post` and its tests are).  The
spec says it "clears plan-active flag, processor id, card/payment tokens,
next-billing date; idempotent". -/
def cancel_subscription (a : Account) : Account :=
  { a with
      is_plan_active := false, processor := none, card_nonce := none,
      payment_nonce := none, next_billing_date := none }

deriving instance DecidableEq for Except

example :
    rateLimitPost ⟨10, 104857600⟩ .anon (some "1.2.3.4") (some "UA")
      (some [some "1024"]) [] 0 =
    .ok (allowFull (some "1.2.3.4") "1.2.3.4 UA" 1,
      [("1.2.3.4 UA", ⟨1, 3600⟩)],
      [.read "1.2.3.4 UA", .write "1.2.3.4 UA" 1 3600]) := by
  decide

example :
    rateLimitPost ⟨10, 104857600⟩ .anon (some "1.2.3.4") (some "UA")
      (some [some "200000000"]) [] 0 =
    .ok (denyLimitExceeded (some "1.2.3.4") "1.2.3.4 UA" none, [],
      [.ttl "1.2.3.4 UA"]) := by
  decide

/-! ## Claim C2: an authenticated caller with an active plan is always allowed -/

/-- C2: for every request to the rate gate by an authenticated caller whose
plan is active, the request is allowed (HTTP 200, `status` true),
regardless of the counter value (any cache state) and regardless of the
declared total upload size. -/
theorem active_plan_always_allowed (cfg : Config) (cr : Int)
    (nb : Option String) (ip : Option String) (ua : String)
    (items : List (Option String)) (total : Int) (c : Cache) (now : Nat)
    (h : totalSize items = .ok total) :
    rateLimitPost cfg (.auth true cr nb) ip (some ua) (some items) c now =
      .ok (allowFull ip (cacheKeyOf ip ua) 0, c, []) ∧
    (allowFull ip (cacheKeyOf ip ua) 0).httpStatus = 200 ∧
    (allowFull ip (cacheKeyOf ip ua) 0).status = true := by
  refine ⟨?_, rfl, rfl⟩
  simp [rateLimitPost, h, gateDecision, Caller.is_authenticated,
    Caller.is_plan_active]

/-- Witness for C2 at a concrete oversized request and a cache whose
counter is far above the threshold. -/
theorem active_plan_always_allowed_witness :
    rateLimitPost ⟨10, 104857600⟩ (.auth true 0 none) (some "1.2.3.4")
      (some "UA") (some [some "200000000"])
      [("1.2.3.4 UA", ⟨999, 3600⟩)] 0 =
      .ok (allowFull (some "1.2.3.4") (cacheKeyOf (some "1.2.3.4") "UA") 0,
        [("1.2.3.4 UA", ⟨999, 3600⟩)], []) ∧
    (allowFull (some "1.2.3.4") (cacheKeyOf (some "1.2.3.4") "UA") 0).httpStatus = 200 ∧
    (allowFull (some "1.2.3.4") (cacheKeyOf (some "1.2.3.4") "UA") 0).status = true :=
  active_plan_always_allowed ⟨10, 104857600⟩ 0 none (some "1.2.3.4") "UA"
    [some "200000000"] 200000000 [("1.2.3.4 UA", ⟨999, 3600⟩)] 0 (by decide)

/-! ## Claim C3: the size cap -/

/-- C3 counterexample: the claim quantifies over every caller
"unauthenticated or authenticated with zero credits", but an authenticated
caller with zero credits whose plan is active is allowed by the earlier
plan check even when the declared size exceeds the ceiling, instead of
being denied with `limit_exceeded` and HTTP 400. -/
theorem size_cap_counterexample :
    rateLimitPost ⟨10, 104857600⟩ (.auth true 0 none) (some "1.2.3.4")
      (some "UA") (some [some "200000000"]) [] 0 =
      .ok (allowFull (some "1.2.3.4") "1.2.3.4 UA" 0, [], []) ∧
    (allowFull (some "1.2.3.4") "1.2.3.4 UA" 0).httpStatus = 200 ∧
    (allowFull (some "1.2.3.4") "1.2.3.4 UA" 0).limit_exceeded = false := by
  decide

/-- C3 (amended): for every rate-gate request from a caller that is
unauthenticated, or authenticated with zero (or fewer) credits and an
inactive plan, if the declared sizes sum to more than `FILES_LIMIT` the
request is denied with `limit_exceeded` and HTTP 400, the cache is left
unchanged, and no counter read or write is performed (only the
time-to-live of the entry is inspected for the retry-after field). -/
theorem size_cap_denies_before_counter (cfg : Config) (caller : Caller)
    (ip : Option String) (ua : String) (items : List (Option String))
    (total : Int) (c : Cache) (now : Nat)
    (hcaller : caller = .anon ∨
      ∃ cr nb, caller = .auth false cr nb ∧ cr ≤ 0)
    (h : totalSize items = .ok total)
    (hsize : cfg.FILES_LIMIT < total) :
    rateLimitPost cfg caller ip (some ua) (some items) c now =
      .ok (denyLimitExceeded ip (cacheKeyOf ip ua)
            (expireInfo c now (cacheKeyOf ip ua)), c,
           [.ttl (cacheKeyOf ip ua)]) ∧
    (denyLimitExceeded ip (cacheKeyOf ip ua)
      (expireInfo c now (cacheKeyOf ip ua))).httpStatus = 400 ∧
    (denyLimitExceeded ip (cacheKeyOf ip ua)
      (expireInfo c now (cacheKeyOf ip ua))).limit_exceeded = true := by
  refine ⟨?_, rfl, rfl⟩
  rcases hcaller with h1 | ⟨cr, nb, h1, hcr⟩
  · subst h1
    simp [rateLimitPost, h, gateDecision, Caller.is_authenticated,
      Caller.is_plan_active, Caller.credits, hsize]
  · subst h1
    simp [rateLimitPost, h, gateDecision, Caller.is_authenticated,
      Caller.is_plan_active, Caller.credits, hsize, hcr]

/-- Witness for C3 (amended): the spec's own scenario, an unauthenticated
caller declaring 200000000 bytes against a 104857600-byte ceiling. -/
theorem size_cap_denies_before_counter_witness :
    rateLimitPost ⟨10, 104857600⟩ .anon (some "1.2.3.4") (some "UA")
      (some [some "200000000"]) [] 0 =
      .ok (denyLimitExceeded (some "1.2.3.4") (cacheKeyOf (some "1.2.3.4") "UA")
            (expireInfo [] 0 (cacheKeyOf (some "1.2.3.4") "UA")), [],
           [.ttl (cacheKeyOf (some "1.2.3.4") "UA")]) ∧
    (denyLimitExceeded (some "1.2.3.4") (cacheKeyOf (some "1.2.3.4") "UA")
      (expireInfo [] 0 (cacheKeyOf (some "1.2.3.4") "UA"))).httpStatus = 400 ∧
    (denyLimitExceeded (some "1.2.3.4") (cacheKeyOf (some "1.2.3.4") "UA")
      (expireInfo [] 0 (cacheKeyOf (some "1.2.3.4") "UA"))).limit_exceeded = true :=
  size_cap_denies_before_counter ⟨10, 104857600⟩ .anon (some "1.2.3.4") "UA"
    [some "200000000"] 200000000 [] 0 (Or.inl rfl) (by decide) (by decide)

/-! ## Claim C8: positive credits are allowed without incrementing -/

/-- C8: a rate-gate request from an authenticated caller with positive
credits and no active plan that reaches the counter-tracking stage (a
truthy ip) is allowed, and the cache state after the request is the cache
state before it: the counter is read but never written. -/
theorem credits_allowed_without_increment (cfg : Config) (cr : Int)
    (nb : Option String) (ip : Option String) (ua : String)
    (items : List (Option String)) (total : Int) (c : Cache) (now : Nat)
    (h : totalSize items = .ok total) (hcr : 0 < cr)
    (hip : ipTruthy ip = true) :
    rateLimitPost cfg (.auth false cr nb) ip (some ua) (some items) c now =
      .ok (bareAllow, c, [.read (cacheKeyOf ip ua)]) ∧
    bareAllow.httpStatus = 200 ∧ bareAllow.status = true := by
  refine ⟨?_, rfl, rfl⟩
  have h1 : ¬ (cr ≤ 0) := not_le.mpr hcr
  simp [rateLimitPost, h, gateDecision, Caller.is_authenticated,
    Caller.is_plan_active, Caller.credits, h1, hip, hcr]

/-- Witness for C8 at a concrete request over a cache holding a counter at
the threshold. -/
theorem credits_allowed_without_increment_witness :
    rateLimitPost ⟨10, 104857600⟩ (.auth false 10 none) (some "1.2.3.4")
      (some "UA") (some [some "1024"]) [("1.2.3.4 UA", ⟨10, 3600⟩)] 0 =
      .ok (bareAllow, [("1.2.3.4 UA", ⟨10, 3600⟩)],
        [.read (cacheKeyOf (some "1.2.3.4") "UA")]) ∧
    bareAllow.httpStatus = 200 ∧ bareAllow.status = true :=
  credits_allowed_without_increment ⟨10, 104857600⟩ 10 none (some "1.2.3.4")
    "UA" [some "1024"] 1024 [("1.2.3.4 UA", ⟨10, 3600⟩)] 0 (by decide)
    (by decide) (by decide)

/-! ## Claim C4: credit consumption -/

/-- C4: `consume_credits` decrements the credits balance by 1 when credits
are positive, leaves credits at 0 when they are already 0, never produces
a negative balance, and is a no-op returning nothing when no account is
supplied. -/
theorem consume_credits_spec :
    (∀ a : Account, 0 < a.credits →
      (consume_credits (some a)).map Account.credits = some (a.credits - 1)) ∧
    (∀ a : Account, a.credits = 0 →
      (consume_credits (some a)).map Account.credits = some 0) ∧
    (∀ (oa : Option Account) (a' : Account),
      consume_credits oa = some a' → 0 ≤ a'.credits) ∧
    consume_credits none = none := by
  refine ⟨?_, ?_, ?_, rfl⟩
  · intro a ha
    simp [consume_credits]
    omega
  · intro a ha
    simp [consume_credits, ha]
  · intro oa a' h
    cases oa with
    | none => simp [consume_credits] at h
    | some a =>
      simp [consume_credits] at h
      subst h
      simp [le_max_right]

/-- Witness for C4 at accounts with 5 credits, 0 credits, and no account. -/
theorem consume_credits_witness :
    (consume_credits (some ⟨5, false, none, none, none, none⟩)).map
      Account.credits = some 4 ∧
    (consume_credits (some ⟨0, false, none, none, none, none⟩)).map
      Account.credits = some 0 ∧
    consume_credits none = none := by
  refine ⟨?_, ?_, consume_credits_spec.2.2.2⟩
  · simpa using consume_credits_spec.1 ⟨5, false, none, none, none, none⟩
      (by decide)
  · exact consume_credits_spec.2.1 ⟨0, false, none, none, none, none⟩ rfl

/-! ## Claim C5: subscription cancellation is idempotent -/

/-- C5: `cancel_subscription` is idempotent — calling it once or twice
yields the same final state — and after each call the plan-active flag is
false and the processor identifier, card token, payment token, and
next-billing date are all null. -/
theorem cancel_subscription_idempotent (a : Account) :
    cancel_subscription (cancel_subscription a) = cancel_subscription a ∧
    (cancel_subscription a).is_plan_active = false ∧
    (cancel_subscription a).processor = none ∧
    (cancel_subscription a).card_nonce = none ∧
    (cancel_subscription a).payment_nonce = none ∧
    (cancel_subscription a).next_billing_date = none := by
  simp [cancel_subscription]

/-! ## Claim C7: callers with no resolvable ip -/

/-- C7 counterexample: the claim says a caller with no resolvable ip "is
always allowed", but an unauthenticated caller without an ip whose
declared size exceeds the ceiling is still denied by the size cap with
HTTP 400. -/
theorem no_ip_counterexample :
    rateLimitPost ⟨10, 104857600⟩ .anon none (some "UA")
      (some [some "200000000"]) [] 0 =
      .ok (denyLimitExceeded none "None UA" none, [], [.ttl "None UA"]) ∧
    (denyLimitExceeded none "None UA" none).httpStatus = 400 := by
  decide

/-- C7 (amended): for every rate-gate request from a caller with no
resolvable ip (a falsy ip value), counter tracking is skipped entirely —
the cache state is unchanged and no counter read or write occurs — and
the request is allowed unless the size cap denies it with
`limit_exceeded`. -/
theorem no_ip_skips_tracking (cfg : Config) (caller : Caller)
    (ip : Option String) (ua : String) (items : List (Option String))
    (total : Int) (c : Cache) (now : Nat)
    (h : totalSize items = .ok total) (hip : ipTruthy ip = false) :
    ∃ r log, rateLimitPost cfg caller ip (some ua) (some items) c now =
        .ok (r, c, log) ∧
      (∀ k, CacheOp.read k ∉ log) ∧
      (∀ k cnt e, CacheOp.write k cnt e ∉ log) ∧
      ((r.httpStatus = 200 ∧ r.status = true) ∨
       (r.httpStatus = 400 ∧ r.limit_exceeded = true ∧
        cfg.FILES_LIMIT < total)) := by
  by_cases h1 : caller.is_authenticated = true ∧ caller.is_plan_active = true
  · refine ⟨allowFull ip (cacheKeyOf ip ua) 0, [], ?_, by simp, by simp,
      Or.inl ⟨rfl, rfl⟩⟩
    simp [rateLimitPost, h, gateDecision, h1]
  · by_cases h2 : (caller.is_authenticated = false ∨ caller.credits ≤ 0) ∧
      cfg.FILES_LIMIT < total
    · refine ⟨denyLimitExceeded ip (cacheKeyOf ip ua)
        (expireInfo c now (cacheKeyOf ip ua)), [.ttl (cacheKeyOf ip ua)],
        ?_, by simp, by simp, Or.inr ⟨rfl, rfl, h2.2⟩⟩
      simp [rateLimitPost, h, gateDecision, h1, h2]
    · refine ⟨allowFull ip (cacheKeyOf ip ua) 0, [], ?_, by simp, by simp,
        Or.inl ⟨rfl, rfl⟩⟩
      simp [rateLimitPost, h, gateDecision, h1, h2, hip]

/-- Witness for C7 (amended) at a concrete ip-less small request. -/
theorem no_ip_skips_tracking_witness :
    ∃ r log, rateLimitPost ⟨10, 104857600⟩ .anon none (some "UA")
        (some [some "1024"]) [] 0 = .ok (r, [], log) ∧
      (∀ k, CacheOp.read k ∉ log) ∧
      (∀ k cnt e, CacheOp.write k cnt e ∉ log) ∧
      ((r.httpStatus = 200 ∧ r.status = true) ∨
       (r.httpStatus = 400 ∧ r.limit_exceeded = true ∧
        (104857600 : Int) < 1024)) :=
  no_ip_skips_tracking ⟨10, 104857600⟩ .anon none "UA" [some "1024"] 1024
    [] 0 (by decide) (by decide)

/-! ## Claim C9: malformed requests raise Python exceptions -/

/-- C9 counterexample: a request whose body lacks `files_data` does not
get an error response — the view raises (`for item in None` is a
`TypeError`); likewise a non-numeric size raises `ValueError` and a
missing `User_Agent` header raises `KeyError`. -/
theorem malformed_request_counterexample :
    rateLimitPost ⟨10, 104857600⟩ .anon (some "1.2.3.4") (some "UA") none
      [] 0 = .error .typeError ∧
    rateLimitPost ⟨10, 104857600⟩ .anon (some "1.2.3.4") (some "UA")
      (some [some "abc"]) [] 0 = .error .valueError ∧
    rateLimitPost ⟨10, 104857600⟩ .anon (some "1.2.3.4") none
      (some [some "1024"]) [] 0 = .error .keyError :=
  ⟨rfl, by decide, rfl⟩

/-- A `files_data` list containing a bad item (a missing or non-numeric
size) makes the summation loop raise. -/
theorem totalSize_error_of_bad (items : List (Option String))
    (hbad : ∃ it ∈ items,
      it = none ∨ ∃ s, it = some s ∧ pyIntOfString s = none) :
    ∃ e, totalSize items = .error e := by
  induction items with
  | nil => simp at hbad
  | cons it rest ih =>
    rcases hbad with ⟨x, hx, hcase⟩
    rcases List.mem_cons.mp hx with h1 | h1
    · subst h1
      rcases hcase with h2 | ⟨s, h2, h3⟩
      · subst h2
        exact ⟨.typeError, rfl⟩
      · subst h2
        exact ⟨.valueError, by simp [totalSize, h3]⟩
    · cases it with
      | none => exact ⟨.typeError, rfl⟩
      | some s =>
        cases hs : pyIntOfString s with
        | none => exact ⟨.valueError, by simp [totalSize, hs]⟩
        | some n =>
          obtain ⟨e, he⟩ := ih ⟨x, h1, hcase⟩
          exact ⟨e, by simp [totalSize, hs, he]⟩

/-- C9 (amended): for every rate-gate request whose headers lack a
user-agent, whose body lacks `files_data`, or whose `files_data` entries
have a missing or non-numeric size, the operation raises a Python
exception (`KeyError`, `TypeError`, or `ValueError`), which surfaces as a
server error — it does not return an error response. -/
theorem malformed_request_raises :
    (∀ (cfg : Config) (caller : Caller) (ip : Option String)
        (fd : Option (List (Option String))) (c : Cache) (now : Nat),
      rateLimitPost cfg caller ip none fd c now = .error .keyError) ∧
    (∀ (cfg : Config) (caller : Caller) (ip : Option String) (ua : String)
        (c : Cache) (now : Nat),
      rateLimitPost cfg caller ip (some ua) none c now =
        .error .typeError) ∧
    (∀ (cfg : Config) (caller : Caller) (ip : Option String) (ua : String)
        (items : List (Option String)) (c : Cache) (now : Nat),
      (∃ it ∈ items,
        it = none ∨ ∃ s, it = some s ∧ pyIntOfString s = none) →
      ∃ e, rateLimitPost cfg caller ip (some ua) (some items) c now =
        .error e) := by
  refine ⟨fun _ _ _ _ _ _ => rfl, fun _ _ _ _ _ _ => rfl, ?_⟩
  intro cfg caller ip ua items c now hbad
  obtain ⟨e, he⟩ := totalSize_error_of_bad items hbad
  exact ⟨e, by simp [rateLimitPost, he]⟩

/-- Witness for C9 (amended) at a body whose second item has no size
field. -/
theorem malformed_request_raises_witness :
    ∃ e, rateLimitPost ⟨10, 104857600⟩ .anon (some "1.2.3.4") (some "UA")
      (some [some "12", none]) [] 0 = .error e :=
  malformed_request_raises.2.2 ⟨10, 104857600⟩ .anon (some "1.2.3.4") "UA"
    [some "12", none] [] 0 ⟨none, by simp, Or.inl rfl⟩

/-! ## Exhaustive shape analysis of the decision stage -/

/-- Every run of the decision stage lands in one of the six response
shapes of the source: the plan-active allow, the size-cap denial, the bare
positive-credits allow, the `no_credits` denial, the `rate_limit` denial,
or the incrementing allow. -/
theorem gateDecision_shape (cfg : Config) (caller : Caller)
    (ip : Option String) (ua : String) (total : Int) (c : Cache) (now : Nat)
    (r : GateResponse) (c' : Cache) (log : List CacheOp)
    (h : gateDecision cfg caller ip ua total c now = (r, c', log)) :
    (r = allowFull ip (cacheKeyOf ip ua) 0 ∧ c' = c ∧ log = []) ∨
    (r = denyLimitExceeded ip (cacheKeyOf ip ua)
        (expireInfo c now (cacheKeyOf ip ua)) ∧ c' = c ∧
      log = [.ttl (cacheKeyOf ip ua)]) ∨
    (r = bareAllow ∧ c' = c ∧ log = [.read (cacheKeyOf ip ua)] ∧
      caller.is_authenticated = true ∧ 0 < caller.credits ∧
      caller.is_plan_active = false ∧ ipTruthy ip = true) ∨
    (∃ k, cfg.RATE_LIMIT ≤ k ∧
      r = denyNoCredits ip (cacheKeyOf ip ua) k
        (expireInfo c now (cacheKeyOf ip ua)) caller.next_billing_date ∧
      c' = c ∧
      log = [.read (cacheKeyOf ip ua), .ttl (cacheKeyOf ip ua)]) ∨
    (∃ k, cfg.RATE_LIMIT ≤ k ∧
      r = denyRateLimit ip (cacheKeyOf ip ua) k
        (expireInfo c now (cacheKeyOf ip ua)) ∧
      c' = c ∧
      log = [.read (cacheKeyOf ip ua), .ttl (cacheKeyOf ip ua)]) ∨
    (∃ k, r = allowFull ip (cacheKeyOf ip ua) (k + 1) ∧
      c' = setToCache c now (cacheKeyOf ip ua) (k + 1) 3600 ∧
      log = [.read (cacheKeyOf ip ua),
             .write (cacheKeyOf ip ua) (k + 1) 3600]) := by
  simp only [gateDecision] at h
  split_ifs at h with h1 h2 h3 h4 h5 h6 h7
  · injection h with ha hb
    injection hb with hb hc
    exact Or.inl ⟨ha.symm, hb.symm, hc.symm⟩
  · injection h with ha hb
    injection hb with hb hc
    exact Or.inr (Or.inl ⟨ha.symm, hb.symm, hc.symm⟩)
  · injection h with ha hb
    injection hb with hb hc
    refine Or.inr (Or.inr (Or.inl ⟨ha.symm, hb.symm, hc.symm, h4, h5, ?_, h3⟩))
    rcases h1' : caller.is_plan_active with _ | _
    · rfl
    · exact absurd ⟨h4, h1'⟩ h1
  · injection h with ha hb
    injection hb with hb hc
    exact Or.inr (Or.inr (Or.inr (Or.inl
      ⟨(getFromCache c now (cacheKeyOf ip ua)).getD 0, h6, ha.symm, hb.symm,
        hc.symm⟩)))
  · injection h with ha hb
    injection hb with hb hc
    refine Or.inr (Or.inr (Or.inr (Or.inr (Or.inr
      ⟨(getFromCache c now (cacheKeyOf ip ua)).getD 0, ha.symm, ?_, hc.symm⟩))))
    rw [← hb]
  · injection h with ha hb
    injection hb with hb hc
    exact Or.inr (Or.inr (Or.inr (Or.inr (Or.inl
      ⟨(getFromCache c now (cacheKeyOf ip ua)).getD 0, h7, ha.symm, hb.symm,
        hc.symm⟩))))
  · injection h with ha hb
    injection hb with hb hc
    refine Or.inr (Or.inr (Or.inr (Or.inr (Or.inr
      ⟨(getFromCache c now (cacheKeyOf ip ua)).getD 0, ha.symm, ?_, hc.symm⟩))))
    rw [← hb]
  · injection h with ha hb
    injection hb with hb hc
    exact Or.inl ⟨ha.symm, hb.symm, hc.symm⟩

/-! ## Claim C6: response fields -/

/-- C6 counterexample: the allow returned to an authenticated caller with
positive credits at the counter-tracking stage is the bare
`{'status': True}` — it includes neither the fingerprint nor the ip nor
the counter, so not every response echoes them. -/
theorem response_fields_counterexample :
    rateLimitPost ⟨10, 104857600⟩ (.auth false 5 none) (some "1.2.3.4")
      (some "UA") (some [some "1024"]) [] 0 =
      .ok (bareAllow, [], [.read "1.2.3.4 UA"]) ∧
    bareAllow.ipField = none ∧ bareAllow.cacheKeyField = none ∧
    bareAllow.counterField = none := by
  decide

/-- C6 (amended): every response of the rate gate includes the caller's
fingerprint, the ip, and the current counter value, except the bare allow
returned exactly to an authenticated caller with positive credits and an
inactive plan at the counter-tracking stage; every denial (HTTP 400)
additionally includes a retry-after field derived from the cache entry's
remaining time-to-live. -/
theorem response_fields (cfg : Config) (caller : Caller)
    (ip : Option String) (ua : String) (items : List (Option String))
    (c : Cache) (now : Nat) (r : GateResponse) (c' : Cache)
    (log : List CacheOp)
    (h : rateLimitPost cfg caller ip (some ua) (some items) c now =
      .ok (r, c', log)) :
    (r.httpStatus = 400 → r.untilField.isSome = true) ∧
    (r = bareAllow ∨
      (r.ipField.isSome = true ∧ r.cacheKeyField.isSome = true ∧
       r.counterField.isSome = true)) ∧
    (r = bareAllow →
      caller.is_authenticated = true ∧ 0 < caller.credits ∧
      caller.is_plan_active = false ∧ ipTruthy ip = true) := by
  simp only [rateLimitPost] at h
  cases hA : totalSize items with
  | error e => rw [hA] at h; exact absurd h (by simp)
  | ok total =>
    rw [hA] at h
    simp only [Except.ok.injEq] at h
    rcases gateDecision_shape cfg caller ip ua total c now r c' log h with
      ⟨hr, _, _⟩ | ⟨hr, _, _⟩ | ⟨hr, _, _, hb⟩ | ⟨k, _, hr, _, _⟩ |
      ⟨k, _, hr, _, _⟩ | ⟨k, hr, _, _⟩
    · subst hr
      refine ⟨by simp [allowFull, emptyResponse], Or.inr ⟨rfl, rfl, rfl⟩, ?_⟩
      intro heq
      simp [allowFull, bareAllow, emptyResponse, GateResponse.mk.injEq] at heq
    · subst hr
      refine ⟨fun _ => rfl, Or.inr ⟨rfl, rfl, rfl⟩, ?_⟩
      intro heq
      simp [denyLimitExceeded, bareAllow, emptyResponse,
        GateResponse.mk.injEq] at heq
    · subst hr
      exact ⟨by simp [bareAllow, emptyResponse], Or.inl rfl, fun _ => hb⟩
    · subst hr
      refine ⟨fun _ => rfl, Or.inr ⟨rfl, rfl, rfl⟩, ?_⟩
      intro heq
      simp [denyNoCredits, bareAllow, emptyResponse,
        GateResponse.mk.injEq] at heq
    · subst hr
      refine ⟨fun _ => rfl, Or.inr ⟨rfl, rfl, rfl⟩, ?_⟩
      intro heq
      simp [denyRateLimit, bareAllow, emptyResponse,
        GateResponse.mk.injEq] at heq
    · subst hr
      refine ⟨by simp [allowFull, emptyResponse], Or.inr ⟨rfl, rfl, rfl⟩, ?_⟩
      intro heq
      simp [allowFull, bareAllow, emptyResponse, GateResponse.mk.injEq] at heq

/-- Witness for C6 (amended) at a concrete unauthenticated denial. -/
theorem response_fields_witness :
    ((denyRateLimit (some "1.2.3.4") "1.2.3.4 UA" 10
        (expireInfo [("1.2.3.4 UA", ⟨10, 3600⟩)] 0 "1.2.3.4 UA")).httpStatus
          = 400 →
      (denyRateLimit (some "1.2.3.4") "1.2.3.4 UA" 10
        (expireInfo [("1.2.3.4 UA", ⟨10, 3600⟩)] 0
          "1.2.3.4 UA")).untilField.isSome = true) ∧
    (denyRateLimit (some "1.2.3.4") "1.2.3.4 UA" 10
        (expireInfo [("1.2.3.4 UA", ⟨10, 3600⟩)] 0 "1.2.3.4 UA") =
        bareAllow ∨
      ((denyRateLimit (some "1.2.3.4") "1.2.3.4 UA" 10
          (expireInfo [("1.2.3.4 UA", ⟨10, 3600⟩)] 0
            "1.2.3.4 UA")).ipField.isSome = true ∧
       (denyRateLimit (some "1.2.3.4") "1.2.3.4 UA" 10
          (expireInfo [("1.2.3.4 UA", ⟨10, 3600⟩)] 0
            "1.2.3.4 UA")).cacheKeyField.isSome = true ∧
       (denyRateLimit (some "1.2.3.4") "1.2.3.4 UA" 10
          (expireInfo [("1.2.3.4 UA", ⟨10, 3600⟩)] 0
            "1.2.3.4 UA")).counterField.isSome = true)) ∧
    (denyRateLimit (some "1.2.3.4") "1.2.3.4 UA" 10
        (expireInfo [("1.2.3.4 UA", ⟨10, 3600⟩)] 0 "1.2.3.4 UA") =
        bareAllow →
      Caller.anon.is_authenticated = true ∧ 0 < Caller.anon.credits ∧
      Caller.anon.is_plan_active = false ∧
      ipTruthy (some "1.2.3.4") = true) :=
  response_fields ⟨10, 104857600⟩ .anon (some "1.2.3.4") "UA" [some "1024"]
    [("1.2.3.4 UA", ⟨10, 3600⟩)] 0
    (denyRateLimit (some "1.2.3.4") "1.2.3.4 UA" 10
      (expireInfo [("1.2.3.4 UA", ⟨10, 3600⟩)] 0 "1.2.3.4 UA"))
    [("1.2.3.4 UA", ⟨10, 3600⟩)] [.read "1.2.3.4 UA", .ttl "1.2.3.4 UA"]
    (by decide)

/-! ## Claim C10: every cache write carries a 3600-second expiry -/

/-- C10: every cache write performed by the rate gate stores the counter
with an expiry of exactly 3600 seconds measured from that write: the
written entry expires at `now + 3600`, so the stored counter is visible
(not expired) at every instant before `now + 3600` — each allowed tracked
request restarts the window from itself. -/
theorem cache_write_window (cfg : Config) (caller : Caller)
    (ip : Option String) (ua : String) (items : List (Option String))
    (c : Cache) (now : Nat) (r : GateResponse) (c' : Cache)
    (log : List CacheOp) (k : String) (cnt e : Nat)
    (h : rateLimitPost cfg caller ip (some ua) (some items) c now =
      .ok (r, c', log))
    (hw : CacheOp.write k cnt e ∈ log) :
    e = 3600 ∧ k = cacheKeyOf ip ua ∧
    cacheLookup c' k = some ⟨cnt, now + 3600⟩ ∧
    ∀ t', t' < now + 3600 → getFromCache c' t' k = some cnt := by
  simp only [rateLimitPost] at h
  cases hA : totalSize items with
  | error er => rw [hA] at h; exact absurd h (by simp)
  | ok total =>
    rw [hA] at h
    simp only [Except.ok.injEq] at h
    rcases gateDecision_shape cfg caller ip ua total c now r c' log h with
      ⟨_, _, hl⟩ | ⟨_, _, hl⟩ | ⟨_, _, hl, _⟩ | ⟨k0, _, _, _, hl⟩ |
      ⟨k0, _, _, _, hl⟩ | ⟨k0, _, hc, hl⟩
    · subst hl; simp at hw
    · subst hl; simp at hw
    · subst hl; simp at hw
    · subst hl; simp at hw
    · subst hl; simp at hw
    · subst hl
      simp only [List.mem_cons, List.mem_singleton] at hw
      rcases hw with hw | hw | hw
      · exact absurd hw (by simp)
      · injection hw with hk hcnt he
        subst hk
        subst hcnt
        subst he
        subst hc
        refine ⟨rfl, rfl, by simp [setToCache, cacheLookup], ?_⟩
        intro t' ht'
        simp [setToCache, getFromCache, cacheLookup, ht']
      · simp at hw

/-- Witness for C10 at a concrete tracked request. -/
theorem cache_write_window_witness :
    (3600 : Nat) = 3600 ∧ "1.2.3.4 UA" = cacheKeyOf (some "1.2.3.4") "UA" ∧
    cacheLookup [("1.2.3.4 UA", ⟨1, 3600⟩)] "1.2.3.4 UA" =
      some ⟨1, 0 + 3600⟩ ∧
    ∀ t', t' < 0 + 3600 →
      getFromCache [("1.2.3.4 UA", ⟨1, 3600⟩)] t' "1.2.3.4 UA" = some 1 :=
  cache_write_window ⟨10, 104857600⟩ .anon (some "1.2.3.4") "UA"
    [some "1024"] [] 0 (allowFull (some "1.2.3.4") "1.2.3.4 UA" 1)
    [("1.2.3.4 UA", ⟨1, 3600⟩)]
    [.read "1.2.3.4 UA", .write "1.2.3.4 UA" 1 3600] "1.2.3.4 UA" 1 3600
    (by decide) (by simp)

/-! ## Claim C1: the threshold denial after a fresh window -/

/-- The callers that the counter-tracking stage counts: the anonymous
caller, and an authenticated caller with an inactive plan and no
credits. -/
def trackedCaller (caller : Caller) : Prop :=
  caller = .anon ∨ ∃ cr nb, caller = .auth false cr nb ∧ cr ≤ 0

/-- A tracked request that reads a counter below the threshold is allowed
and writes the incremented counter back with the window expiry. -/
theorem step_tracked_allow (cfg : Config) (caller : Caller)
    (ip : Option String) (ua : String) (items : List (Option String))
    (total : Int) (c : Cache) (now k : Nat)
    (hcaller : trackedCaller caller)
    (hA : totalSize items = .ok total) (hsize : total ≤ cfg.FILES_LIMIT)
    (hip : ipTruthy ip = true)
    (hk : (getFromCache c now (cacheKeyOf ip ua)).getD 0 = k)
    (hlt : k < cfg.RATE_LIMIT) :
    rateLimitPost cfg caller ip (some ua) (some items) c now =
      .ok (allowFull ip (cacheKeyOf ip ua) (k + 1),
        setToCache c now (cacheKeyOf ip ua) (k + 1) 3600,
        [.read (cacheKeyOf ip ua),
         .write (cacheKeyOf ip ua) (k + 1) 3600]) := by
  have hs : ¬ cfg.FILES_LIMIT < total := not_lt.mpr hsize
  have hT : ¬ cfg.RATE_LIMIT ≤ k := not_le.mpr hlt
  rcases hcaller with h1 | ⟨cr, nb, h1, hcr⟩
  · subst h1
    simp [rateLimitPost, hA, gateDecision, Caller.is_authenticated,
      Caller.is_plan_active, Caller.credits, hs, hip, hk, hT]
  · subst h1
    have h2 : ¬ (0 : Int) < cr := not_lt.mpr hcr
    simp [rateLimitPost, hA, gateDecision, Caller.is_authenticated,
      Caller.is_plan_active, Caller.credits, hs, hip, hk, hT, h2]

/-- An unauthenticated request that reads a counter at or above the
threshold is denied with `rate_limit`. -/
theorem step_anon_deny (cfg : Config) (ip : Option String) (ua : String)
    (items : List (Option String)) (total : Int) (c : Cache) (now k : Nat)
    (hA : totalSize items = .ok total) (hsize : total ≤ cfg.FILES_LIMIT)
    (hip : ipTruthy ip = true)
    (hk : (getFromCache c now (cacheKeyOf ip ua)).getD 0 = k)
    (hge : cfg.RATE_LIMIT ≤ k) :
    rateLimitPost cfg .anon ip (some ua) (some items) c now =
      .ok (denyRateLimit ip (cacheKeyOf ip ua) k
            (expireInfo c now (cacheKeyOf ip ua)), c,
           [.read (cacheKeyOf ip ua), .ttl (cacheKeyOf ip ua)]) := by
  have hs : ¬ cfg.FILES_LIMIT < total := not_lt.mpr hsize
  simp [rateLimitPost, hA, gateDecision, Caller.is_authenticated,
    Caller.is_plan_active, Caller.credits, hs, hip, hk, hge]

/-- An authenticated zero-credit request that reads a counter at or above
the threshold is denied with `no_credits`, echoing the next-billing
date. -/
theorem step_nocredits_deny (cfg : Config) (cr : Int) (nb : Option String)
    (ip : Option String) (ua : String) (items : List (Option String))
    (total : Int) (c : Cache) (now k : Nat) (hcr : cr ≤ 0)
    (hA : totalSize items = .ok total) (hsize : total ≤ cfg.FILES_LIMIT)
    (hip : ipTruthy ip = true)
    (hk : (getFromCache c now (cacheKeyOf ip ua)).getD 0 = k)
    (hge : cfg.RATE_LIMIT ≤ k) :
    rateLimitPost cfg (.auth false cr nb) ip (some ua) (some items) c now =
      .ok (denyNoCredits ip (cacheKeyOf ip ua) k
            (expireInfo c now (cacheKeyOf ip ua)) nb, c,
           [.read (cacheKeyOf ip ua), .ttl (cacheKeyOf ip ua)]) := by
  have hs : ¬ cfg.FILES_LIMIT < total := not_lt.mpr hsize
  have h2 : ¬ (0 : Int) < cr := not_lt.mpr hcr
  simp [rateLimitPost, hA, gateDecision, Caller.is_authenticated,
    Caller.is_plan_active, Caller.credits, Caller.next_billing_date, hs,
    hip, hk, hge, h2]

/-- Window induction: a tracked caller whose requests all happen strictly
before an instant `B`, with each request no more than 3600 seconds before
`B`, keeps incrementing a live counter: starting from a cache that reads
`k` for the fingerprint at any instant before `B`, a run of `n ≤ T - k`
requests is entirely allowed and leaves a cache that reads `k + n`. -/
theorem runSeq_allows (cfg : Config) (caller : Caller) (ip : Option String)
    (ua : String) (items : List (Option String)) (total : Int)
    (hcaller : trackedCaller caller) (hA : totalSize items = .ok total)
    (hsize : total ≤ cfg.FILES_LIMIT) (hip : ipTruthy ip = true) :
    ∀ (ts : List Nat) (c : Cache) (k B : Nat),
      (∀ t ∈ ts, t < B) →
      (∀ t ∈ ts, B ≤ t + 3600) →
      (∀ t, t < B → (getFromCache c t (cacheKeyOf ip ua)).getD 0 = k) →
      k + ts.length ≤ cfg.RATE_LIMIT →
      ∃ rs c', runSeq cfg caller ip (some ua) (some items) ts c =
          .ok (rs, c') ∧
        rs.length = ts.length ∧
        (∀ r ∈ rs, r.httpStatus = 200 ∧ r.status = true) ∧
        (∀ t, t < B →
          (getFromCache c' t (cacheKeyOf ip ua)).getD 0 = k + ts.length) := by
  intro ts
  induction ts with
  | nil =>
    intro c k B _ _ h3 _
    exact ⟨[], c, rfl, rfl, by simp, by simpa using h3⟩
  | cons t1 rest ih =>
    intro c k B h1 h2 h3 h4
    have ht1B : t1 < B := h1 t1 (by simp)
    have hread : (getFromCache c t1 (cacheKeyOf ip ua)).getD 0 = k :=
      h3 t1 ht1B
    have hklt : k < cfg.RATE_LIMIT := by
      simp only [List.length_cons] at h4
      omega
    have hstep := step_tracked_allow cfg caller ip ua items total c t1 k
      hcaller hA hsize hip hread hklt
    have hread1 : ∀ t, t < B →
        (getFromCache (setToCache c t1 (cacheKeyOf ip ua) (k + 1) 3600) t
          (cacheKeyOf ip ua)).getD 0 = k + 1 := by
      intro t htB
      have hlive : t < t1 + 3600 := lt_of_lt_of_le htB (h2 t1 (by simp))
      simp [setToCache, getFromCache, cacheLookup, hlive]
    obtain ⟨rs, c', hrun, hlen', hall, hfinal⟩ :=
      ih (setToCache c t1 (cacheKeyOf ip ua) (k + 1) 3600) (k + 1) B
        (fun t ht => h1 t (by simp [ht])) (fun t ht => h2 t (by simp [ht]))
        hread1
        (by simp only [List.length_cons] at h4; omega)
    refine ⟨allowFull ip (cacheKeyOf ip ua) (k + 1) :: rs, c', ?_, ?_, ?_, ?_⟩
    · simp [runSeq, hstep, hrun]
    · simp [hlen']
    · intro r hr
      rcases List.mem_cons.mp hr with h | h
      · subst h
        exact ⟨rfl, rfl⟩
      · exact hall r h
    · intro t ht
      have hv := hfinal t ht
      simp only [List.length_cons]
      omega

/-- Appending one more request to a successful run composes. -/
theorem runSeq_snoc (cfg : Config) (caller : Caller) (ip : Option String)
    (ua : Option String) (fd : Option (List (Option String)))
    (xs : List Nat) (tf : Nat) :
    ∀ (c : Cache) (rs : List GateResponse) (c1 : Cache) (r : GateResponse)
      (c2 : Cache) (log : List CacheOp),
      runSeq cfg caller ip ua fd xs c = .ok (rs, c1) →
      rateLimitPost cfg caller ip ua fd c1 tf = .ok (r, c2, log) →
      runSeq cfg caller ip ua fd (xs ++ [tf]) c = .ok (rs ++ [r], c2) := by
  induction xs with
  | nil =>
    intro c rs c1 r c2 log h1 h2
    simp only [runSeq] at h1
    simp only [Except.ok.injEq, Prod.mk.injEq] at h1
    obtain ⟨hrs, hc⟩ := h1
    subst hrs
    subst hc
    simp [runSeq, h2]
  | cons x xs ih =>
    intro c rs c1 r c2 log h1 h2
    simp only [runSeq] at h1 ⊢
    cases hstep : rateLimitPost cfg caller ip ua fd c x with
    | error e =>
      rw [hstep] at h1
      exact absurd h1 (by simp)
    | ok v =>
      obtain ⟨r0, c0, log0⟩ := v
      rw [hstep] at h1
      dsimp only at h1 ⊢
      cases hrest : runSeq cfg caller ip ua fd xs c0 with
      | error e =>
        rw [hrest] at h1
        exact absurd h1 (by simp)
      | ok w =>
        obtain ⟨rs0, c1'⟩ := w
        rw [hrest] at h1
        simp only [Except.ok.injEq, Prod.mk.injEq] at h1
        obtain ⟨hrs, hc⟩ := h1
        subst hrs
        subst hc
        rw [show xs.append [tf] = xs ++ [tf] from rfl,
          ih c0 rs0 c1' r c2 log hrest h2]
        simp

/-- C1: with configured threshold T, for requests from the same
fingerprint (fixed resolvable ip and user agent) within one window —
T + 1 requests at instants that all lie within 3600 seconds of the first,
starting from a cache holding no entry for the fingerprint — the first T
requests are allowed and the (T + 1)-th is denied with HTTP 400: with
reason `rate_limit` for an unauthenticated caller, and with reason
`no_credits` (echoing the next-billing date) for an authenticated caller
with zero credits and an inactive plan. -/
theorem rate_gate_threshold_denial (cfg : Config) (ip : Option String)
    (ua : String) (items : List (Option String)) (total : Int) (c : Cache)
    (ts : List Nat) (tf t0 : Nat)
    (hA : totalSize items = .ok total) (hsize : total ≤ cfg.FILES_LIMIT)
    (hip : ipTruthy ip = true)
    (hfresh : cacheLookup c (cacheKeyOf ip ua) = none)
    (hlen : ts.length = cfg.RATE_LIMIT)
    (hwin : ∀ t ∈ ts ++ [tf], t0 ≤ t ∧ t < t0 + 3600) :
    (∃ rs c1 u,
      runSeq cfg .anon ip (some ua) (some items) (ts ++ [tf]) c =
        .ok (rs ++ [denyRateLimit ip (cacheKeyOf ip ua) cfg.RATE_LIMIT u],
          c1) ∧
      rs.length = cfg.RATE_LIMIT ∧
      (∀ r ∈ rs, r.httpStatus = 200 ∧ r.status = true) ∧
      (denyRateLimit ip (cacheKeyOf ip ua) cfg.RATE_LIMIT u).httpStatus =
        400 ∧
      (denyRateLimit ip (cacheKeyOf ip ua) cfg.RATE_LIMIT u).rate_limit =
        true) ∧
    (∀ nb : Option String,
      ∃ rs c1 u,
        runSeq cfg (.auth false 0 nb) ip (some ua) (some items)
            (ts ++ [tf]) c =
          .ok (rs ++
            [denyNoCredits ip (cacheKeyOf ip ua) cfg.RATE_LIMIT u nb],
            c1) ∧
        rs.length = cfg.RATE_LIMIT ∧
        (∀ r ∈ rs, r.httpStatus = 200 ∧ r.status = true) ∧
        (denyNoCredits ip (cacheKeyOf ip ua) cfg.RATE_LIMIT u
          nb).httpStatus = 400 ∧
        (denyNoCredits ip (cacheKeyOf ip ua) cfg.RATE_LIMIT u
          nb).no_credits = true ∧
        (denyNoCredits ip (cacheKeyOf ip ua) cfg.RATE_LIMIT u
          nb).nextBillingField = some nb) := by
  have hwinB : ∀ t ∈ ts, t < t0 + 3600 := fun t ht =>
    (hwin t (by simp [ht])).2
  have hwinL : ∀ t ∈ ts, t0 + 3600 ≤ t + 3600 := fun t ht => by
    have := (hwin t (by simp [ht])).1
    omega
  have hread0 : ∀ t, t < t0 + 3600 →
      (getFromCache c t (cacheKeyOf ip ua)).getD 0 = 0 := by
    intro t _
    simp [getFromCache, hfresh]
  have htf : tf < t0 + 3600 := (hwin tf (by simp)).2
  constructor
  · obtain ⟨rs, c1, hrun, hlen', hall, hfin⟩ :=
      runSeq_allows cfg .anon ip ua items total (Or.inl rfl) hA hsize hip
        ts c 0 (t0 + 3600) hwinB hwinL hread0 (by omega)
    have hfincnt : (getFromCache c1 tf (cacheKeyOf ip ua)).getD 0 =
        cfg.RATE_LIMIT := by
      simpa [hlen] using hfin tf htf
    have hdeny := step_anon_deny cfg ip ua items total c1 tf
      cfg.RATE_LIMIT hA hsize hip hfincnt le_rfl
    exact ⟨rs, c1, expireInfo c1 tf (cacheKeyOf ip ua),
      runSeq_snoc cfg .anon ip (some ua) (some items) ts tf c rs c1 _ _ _
        hrun hdeny,
      hlen'.trans hlen, hall, rfl, rfl⟩
  · intro nb
    obtain ⟨rs, c1, hrun, hlen', hall, hfin⟩ :=
      runSeq_allows cfg (.auth false 0 nb) ip ua items total
        (Or.inr ⟨0, nb, rfl, le_refl 0⟩) hA hsize hip ts c 0 (t0 + 3600)
        hwinB hwinL hread0 (by omega)
    have hfincnt : (getFromCache c1 tf (cacheKeyOf ip ua)).getD 0 =
        cfg.RATE_LIMIT := by
      simpa [hlen] using hfin tf htf
    have hdeny := step_nocredits_deny cfg 0 nb ip ua items total c1 tf
      cfg.RATE_LIMIT (le_refl 0) hA hsize hip hfincnt le_rfl
    exact ⟨rs, c1, expireInfo c1 tf (cacheKeyOf ip ua),
      runSeq_snoc cfg (.auth false 0 nb) ip (some ua) (some items) ts tf c
        rs c1 _ _ _ hrun hdeny,
      hlen'.trans hlen, hall, rfl, rfl, rfl⟩

/-- Witness for C1: threshold 2, three requests at instants 5, 6, 7 from a
fresh cache — the third is denied for both caller kinds. -/
theorem rate_gate_threshold_denial_witness :
    (∃ rs c1 u,
      runSeq ⟨2, 104857600⟩ .anon (some "1.2.3.4") (some "UA")
          (some [some "1024"]) ([5, 6] ++ [7]) [] =
        .ok (rs ++
          [denyRateLimit (some "1.2.3.4")
            (cacheKeyOf (some "1.2.3.4") "UA") 2 u], c1) ∧
      rs.length = 2 ∧
      (∀ r ∈ rs, r.httpStatus = 200 ∧ r.status = true) ∧
      (denyRateLimit (some "1.2.3.4") (cacheKeyOf (some "1.2.3.4") "UA") 2
        u).httpStatus = 400 ∧
      (denyRateLimit (some "1.2.3.4") (cacheKeyOf (some "1.2.3.4") "UA") 2
        u).rate_limit = true) ∧
    (∀ nb : Option String,
      ∃ rs c1 u,
        runSeq ⟨2, 104857600⟩ (.auth false 0 nb) (some "1.2.3.4")
            (some "UA") (some [some "1024"]) ([5, 6] ++ [7]) [] =
          .ok (rs ++
            [denyNoCredits (some "1.2.3.4")
              (cacheKeyOf (some "1.2.3.4") "UA") 2 u nb], c1) ∧
        rs.length = 2 ∧
        (∀ r ∈ rs, r.httpStatus = 200 ∧ r.status = true) ∧
        (denyNoCredits (some "1.2.3.4") (cacheKeyOf (some "1.2.3.4") "UA")
          2 u nb).httpStatus = 400 ∧
        (denyNoCredits (some "1.2.3.4") (cacheKeyOf (some "1.2.3.4") "UA")
          2 u nb).no_credits = true ∧
        (denyNoCredits (some "1.2.3.4") (cacheKeyOf (some "1.2.3.4") "UA")
          2 u nb).nextBillingField = some nb) :=
  rate_gate_threshold_denial ⟨2, 104857600⟩ (some "1.2.3.4") "UA"
    [some "1024"] 1024 [] [5, 6] 7 5 (by decide) (by decide) (by decide)
    rfl rfl (by decide)

/-- C1 counterexample: an authenticated caller with zero credits whose
plan is active is allowed on every request — with threshold 2, the third
request within one window is HTTP 200 with no `no_credits` denial, so the
claim's "every authenticated caller with zero credits" fails. -/
theorem threshold_denial_counterexample :
    runSeq ⟨2, 104857600⟩ (.auth true 0 none) (some "1.2.3.4") (some "UA")
      (some [some "1024"]) [5, 6, 7] [] =
    .ok ([allowFull (some "1.2.3.4") "1.2.3.4 UA" 0,
          allowFull (some "1.2.3.4") "1.2.3.4 UA" 0,
          allowFull (some "1.2.3.4") "1.2.3.4 UA" 0], []) ∧
    (allowFull (some "1.2.3.4") "1.2.3.4 UA" 0).httpStatus = 200 ∧
    (allowFull (some "1.2.3.4") "1.2.3.4 UA" 0).no_credits = false := by
  decide
